import Mathlib

/-!
Verification of the `ai-search-agent` research pipeline against its
natural-language specification.

The development is a shallow embedding of the Python sources
`src/ai_search_agent/pipeline.py`, `src/ai_search_agent/web_operations.py`
and `src/ai_search_agent/snapshot_operations.py`.  Python dictionaries /
JSON payloads are embedded as a `Json` inductive; Python `None`-or-value
fields as `Option`; raised exceptions as `Except PyErr`; the external
HTTP layer (`requests`) and the language-model client are abstracted as
record-of-functions environments (`Gateway`, `LLM`).  Every embedded
function additionally returns the list of external calls it performed
(network requests and language-model invocations), so that claims of the
form "no network call is made" or "the model is not invoked" are directly
statable.
-/

namespace AiSearchAgent

/-- A role-tagged chat message, as consumed by the language-model client. -/
structure Message where
  role : String
  content : String
deriving DecidableEq, Repr

/-- Embedding of Python/JSON values as produced by `response.json()`.
Floats are not modelled (no code path under verification depends on them). -/
inductive Json where
  | null : Json
  | bool (b : Bool) : Json
  | num (n : Int) : Json
  | str (s : String) : Json
  | arr (xs : List Json) : Json
  | obj (kvs : List (String × Json)) : Json
deriving Repr

/-- Python truthiness (`if x:`) for the embedded JSON values. -/
def pyTruthy : Json → Bool
  | .null => false
  | .bool b => b
  | .num n => n != 0
  | .str s => s ≠ ""
  | .arr xs => ¬ xs.isEmpty
  | .obj kvs => ¬ kvs.isEmpty

/-- Truthiness of an `Option Json` slot (Python `None` or a JSON value). -/
def optJsonTruthy : Option Json → Bool
  | none => false
  | some j => pyTruthy j

/-- Truthiness of an optional string (Python `None` or `str`). -/
def optStrTruthy : Option String → Bool
  | none => false
  | some s => s ≠ ""

/-- `x or ""` applied to an optional string (used for `state.get(...) or ""`). -/
def pyStrOr : Option String → String
  | none => ""
  | some s => s

/-- First-match association lookup, mirroring Python dict key access. -/
def objLookup (kvs : List (String × Json)) (k : String) : Option Json :=
  List.lookup k kvs

/-- `d.get(k, default)` on a known dictionary: the stored value if the key is
present (even if it is `null`), otherwise the default. -/
def objGet (kvs : List (String × Json)) (k : String) (dflt : Json) : Json :=
  (objLookup kvs k).getD dflt

/-- Embedded Python exceptions that the code under verification can raise. -/
inductive PyErr where
  | valueError (msg : String) : PyErr
  | attributeError : PyErr
  | other (msg : String) : PyErr
deriving DecidableEq, Repr

/-- `x.get(k, default)` on an arbitrary value: raises `AttributeError` when the
receiver is not a dictionary, mirroring Python attribute lookup failure. -/
def pyGet (j : Json) (k : String) (dflt : Json) : Except PyErr Json :=
  match j with
  | .obj kvs => .ok (objGet kvs k dflt)
  | _ => .error .attributeError

/-- Whether a value is a Python dictionary (`isinstance(x, dict)`). -/
def Json.isObj : Json → Bool
  | .obj _ => true
  | _ => false

/-- Whether a value is a Python list (`isinstance(x, list)`). -/
def Json.isArr : Json → Bool
  | .arr _ => true
  | _ => false

mutual
/-- String rendering of an embedded value, standing in for Python `str()`
as used in f-string interpolation.  Exact dict/list punctuation is not
claim-relevant; strings render as themselves, as in Python. -/
def Json.render : Json → String
  | .null => "None"
  | .bool b => if b then "True" else "False"
  | .num n => toString n
  | .str s => s
  | .arr xs => "[" ++ Json.renderList xs ++ "]"
  | .obj kvs => "\x7b" ++ Json.renderPairs kvs ++ "\x7d"

/-- Renders list elements, comma separated. -/
def Json.renderList : List Json → String
  | [] => ""
  | [x] => Json.render x
  | x :: xs => Json.render x ++ ", " ++ Json.renderList xs

/-- Renders key/value pairs, comma separated. -/
def Json.renderPairs : List (String × Json) → String
  | [] => ""
  | [(k, v)] => k ++ ": " ++ Json.render v
  | (k, v) :: xs => k ++ ": " ++ Json.render v ++ ", " ++ Json.renderPairs xs
end

/-- An external call performed by the embedded code: an HTTP POST
(with URL, optional query params and JSON body), an HTTP GET, a plain
language-model invocation, or a structured-output language-model
invocation. -/
inductive Call where
  | net (url : String) (params : Option Json) (body : Json) : Call
  | get (url : String) : Call
  | llmInvoke (msgs : List Message) : Call
  | llmStructured (msgs : List Message) : Call

/-- Whether a call is a structured-output language-model invocation. -/
def Call.isStructured : Call → Bool
  | .llmStructured _ => true
  | _ => false

/-- Whether a call is a network request (POST or GET). -/
def Call.isNet : Call → Bool
  | .net _ _ _ => true
  | .get _ => true
  | _ => false

/-- The external HTTP layer (the `requests` library plus the provider's
responses).  Each function stands for one HTTP round trip including
`raise_for_status()` and `.json()` decoding: `.error` means the call raised
a `requests` exception (connection error, non-2xx status, or JSON decode
failure); `.ok j` is the decoded JSON body.  `progress` is indexed by the
polling attempt number, modelling a status that changes over time. -/
structure Gateway where
  post : String → Option Json → Json → Except Unit Json
  progress : String → Nat → Except Unit Json
  snapshot : String → Except Unit Json

/-- The language-model client: `invoke` returns the reply text
(`reply.content`), `invokeStructured` the schema-validated
`RedditURLAnalysis.selected_urls` list.  Either may raise. -/
structure LLM where
  invoke : List Message → Except PyErr String
  invokeStructured : List Message → Except PyErr (List String)

/-- The credential/config bundle read by the stages via `cfg.get(...)`. -/
structure Config where
  brightdata_api_key : Option String
  reddit_dataset_id : Option String
  reddit_comments_dataset_id : Option String

/-- Simplified model of `urllib.parse.quote_plus`: spaces become `+`
(full percent-encoding is not modelled; no claim depends on it). -/
def quotePlus (s : String) : String :=
  s.map (fun c => if c = ' ' then '+' else c)

/-! ## `web_operations.py` and `snapshot_operations.py` -/

/-- Embeds `_make_api_request` (`web_operations.py:14`): one POST with auth
headers; every `requests` exception is caught and turned into `None`.
The effective key (`api_key or os.getenv("BRIGHTDATA_API_KEY")`) only feeds
the auth header, which the `Gateway` abstracts; note that the request is
issued regardless of whether a key is available. -/
def make_api_request (gw : Gateway) (url : String) (params : Option Json)
    (body : Json) : Option Json × List Call :=
  match gw.post url params body with
  | .ok j => (some j, [Call.net url params body])
  | .error _ => (none, [Call.net url params body])

/-- The Bright Data request endpoint used by `serp_search`. -/
def serpRequestUrl : String := "https://api.brightdata.com/request"

/-- The serp payload built by `serp_search` for a base URL and query. -/
def serpPayload (base query : String) : Json :=
  .obj [("zone", .str "ai_agent"),
        ("url", .str (base ++ "?q=" ++ quotePlus query ++ "&brd_json=1")),
        ("format", .str "raw")]

/-- Embeds `serp_search` (`web_operations.py:39`): validates the engine
(raising `ValueError` before any request), posts the SERP payload, and
extracts the `knowledge` and `organic` sections from a truthy dict
response.  A falsy or failed response yields `None`; a truthy non-dict
response raises `AttributeError` at the `.get` calls. -/
def serp_search (gw : Gateway) (query engine : String)
    (_api_key : Option String) : Except PyErr (Option Json) × List Call :=
  if engine = "google" ∨ engine = "bing" then
    let base := if engine = "google" then "https://www.google.com/search"
                else "https://www.bing.com/search"
    match make_api_request gw serpRequestUrl none (serpPayload base query) with
    | (none, log) => (.ok none, log)
    | (some full, log) =>
      if ¬ pyTruthy full then (.ok none, log)
      else
        match full with
        | .obj kvs =>
          (.ok (some (.obj [("knowledge", objGet kvs "knowledge" (.obj [])),
                            ("organic", objGet kvs "organic" (.arr []))])), log)
        | _ => (.error .attributeError, log)
  else
    (.error (.valueError ("Unknown engine " ++ engine)), [])

/-- Progress URL polled by `poll_snapshot_status`. -/
def progressUrl (sid : String) : String :=
  "https://api.brightdata.com/datasets/v3/progress/" ++ sid

/-- Download URL used by `download_snapshot`. -/
def downloadUrl (sid : String) : String :=
  "https://api.brightdata.com/datasets/v3/snapshot/" ++ sid ++ "?format=json"

/-- Result of the polling loop: the returned boolean, the number of attempts
actually performed (one GET each), the total seconds slept, and the calls. -/
structure PollResult where
  result : Bool
  attempts : Nat
  sleep : Nat
  calls : List Call

/-- One attempt plus the remaining loop of `poll_snapshot_status`
(`snapshot_operations.py:28`): the attempt GETs the progress endpoint;
`ready` returns `True`, `failed` returns `False`, and any other status —
`running`, unknown, a raised request, or a non-dict body (whose `.get`
raises inside the `try`) — sleeps `delay` seconds and retries. -/
def poll_aux (gw : Gateway) (sid : String) (delay : Nat) :
    Nat → Nat → PollResult
  | _, 0 => ⟨false, 0, 0, []⟩
  | i, fuel + 1 =>
    let c := Call.get (progressUrl sid)
    let step := fun (r : PollResult) =>
      PollResult.mk r.result (r.attempts + 1) (r.sleep + delay) (c :: r.calls)
    match gw.progress sid i with
    | .error _ => step (poll_aux gw sid delay (i + 1) fuel)
    | .ok j =>
      match pyGet j "status" .null with
      | .ok (.str s) =>
        if s = "ready" then ⟨true, 1, 0, [c]⟩
        else if s = "failed" then ⟨false, 1, 0, [c]⟩
        else step (poll_aux gw sid delay (i + 1) fuel)
      | _ => step (poll_aux gw sid delay (i + 1) fuel)

/-- Embeds `poll_snapshot_status` (`snapshot_operations.py:11`): at most
`max_attempts` attempts with a fixed `delay` between attempts, returning
`False` on exhaustion. -/
def poll_snapshot_status (gw : Gateway) (sid : String)
    (max_attempts : Nat := 60) (delay : Nat := 5) : PollResult :=
  poll_aux gw sid delay 0 max_attempts

/-- Embeds `download_snapshot` (`snapshot_operations.py:61`): one GET for the
snapshot body; every exception is caught and turned into `None`. -/
def download_snapshot (gw : Gateway) (sid : String) : Option Json × List Call :=
  match gw.snapshot sid with
  | .ok j => (some j, [Call.get (downloadUrl sid)])
  | .error _ => (none, [Call.get (downloadUrl sid)])

/-- The Bright Data dataset trigger endpoint. -/
def triggerUrl : String := "https://api.brightdata.com/datasets/v3/trigger"

/-- Embeds `_trigger_and_download_snapshot` (`web_operations.py:81`):
trigger the dataset, extract `snapshot_id` (raising `AttributeError` on a
truthy non-dict trigger response), poll it, and download the snapshot.
Any falsy intermediate step yields `None`. -/
def trigger_and_download_snapshot (gw : Gateway) (trigger_url : String)
    (params data : Json) : Except PyErr (Option Json) × List Call :=
  match make_api_request gw trigger_url (some params) data with
  | (none, log) => (.ok none, log)
  | (some t, log) =>
    if ¬ pyTruthy t then (.ok none, log)
    else
      match pyGet t "snapshot_id" .null with
      | .error e => (.error e, log)
      | .ok sid =>
        if ¬ pyTruthy sid then (.ok none, log)
        else
          let sidStr := sid.render
          let pr := poll_snapshot_status gw sidStr
          if pr.result then
            match download_snapshot gw sidStr with
            | (raw, log3) => (.ok raw, log ++ pr.calls ++ log3)
          else (.ok none, log ++ pr.calls)

/-- The per-post normalization loop of `reddit_search_api`
(`web_operations.py:155`): keep dictionary entries as
`{title, url}` records (with the source's defaults) and skip the rest. -/
def parsePosts : List Json → List Json
  | [] => []
  | .obj kvs :: rest =>
    Json.obj [("title", objGet kvs "title" (.str "No title")),
              ("url", objGet kvs "url" (.str "No URL"))] :: parsePosts rest
  | _ :: rest => parsePosts rest

/-- Embeds `reddit_search_api` (`web_operations.py:103`): validates
`dataset_id` then `api_key` (raising `ValueError` before any request),
triggers/downloads the dataset, and normalizes the raw list into
`{parsed_posts, total_found}`.  A falsy raw result yields `None`; a truthy
non-list yields the empty normalized shape. -/
def reddit_search_api (gw : Gateway) (keyword : String)
    (api_key dataset_id : Option String) :
    Except PyErr (Option Json) × List Call :=
  if ¬ optStrTruthy dataset_id then
    (.error (.valueError "dataset_id is required for Reddit search"), [])
  else if ¬ optStrTruthy api_key then
    (.error (.valueError "api_key is required for Reddit search"), [])
  else
    let params := Json.obj [("dataset_id", .str (pyStrOr dataset_id)),
                            ("include_errors", .str "true"),
                            ("type", .str "discover_new"),
                            ("discover_by", .str "keyword")]
    let data := Json.arr [Json.obj [("keyword", .str keyword),
                                    ("date", .str "All time"),
                                    ("sort_by", .str "Hot"),
                                    ("num_of_posts", .num 75)]]
    match trigger_and_download_snapshot gw triggerUrl params data with
    | (.error e, log) => (.error e, log)
    | (.ok none, log) => (.ok none, log)
    | (.ok (some raw), log) =>
      if ¬ pyTruthy raw then (.ok none, log)
      else
        match raw with
        | .arr xs =>
          (.ok (some (.obj [("parsed_posts", .arr (parsePosts xs)),
                            ("total_found", .num (parsePosts xs).length)])),
           log)
        | _ =>
          (.ok (some (.obj [("parsed_posts", .arr []),
                            ("total_found", .num 0)])), log)

/-- The per-comment normalization loop of `reddit_post_retrieval`
(`web_operations.py:217`): keep dictionary entries as
`{comment_id, content, date}` records (with the source's defaults) and
skip the rest. -/
def parseComments : List Json → List Json
  | [] => []
  | .obj kvs :: rest =>
    Json.obj [("comment_id", objGet kvs "comment_id" (.str "No ID")),
              ("content", objGet kvs "comment" (.str "No content")),
              ("date", objGet kvs "date_posted" (.str "No date"))]
      :: parseComments rest
  | _ :: rest => parseComments rest

/-- Embeds `reddit_post_retrieval` (`web_operations.py:171`): an empty URL
list yields `None` before the credential checks and without any request;
otherwise validates `comments_dataset_id` then `api_key` (raising
`ValueError` before any request), triggers/downloads the comments dataset,
and normalizes the raw list into `{comments, total_retrieved}`.  A falsy
raw result yields `None`; a truthy non-list yields the empty normalized
shape. -/
def reddit_post_retrieval (gw : Gateway) (urls : List String)
    (api_key comments_dataset_id : Option String) :
    Except PyErr (Option Json) × List Call :=
  if urls = [] then (.ok none, [])
  else if ¬ optStrTruthy comments_dataset_id then
    (.error (.valueError
      "comments_dataset_id is required for Reddit comments retrieval"), [])
  else if ¬ optStrTruthy api_key then
    (.error (.valueError
      "api_key is required for Reddit comments retrieval"), [])
  else
    let params := Json.obj [("dataset_id", .str (pyStrOr comments_dataset_id)),
                            ("include_errors", .str "true")]
    let data := Json.arr (urls.map fun u =>
      Json.obj [("url", .str u), ("days_back", .num 10),
                ("load_all_replies", .bool false),
                ("comment_limit", .str "")])
    match trigger_and_download_snapshot gw triggerUrl params data with
    | (.error e, log) => (.error e, log)
    | (.ok none, log) => (.ok none, log)
    | (.ok (some raw), log) =>
      if ¬ pyTruthy raw then (.ok none, log)
      else
        match raw with
        | .arr xs =>
          (.ok (some (.obj [("comments", .arr (parseComments xs)),
                            ("total_retrieved", .num (parseComments xs).length)])),
           log)
        | _ =>
          (.ok (some (.obj [("comments", .arr []),
                            ("total_retrieved", .num 0)])), log)

/-! ## Prompt construction (`prompts.py`)

`prompts.py` is imported by `pipeline.py` but is not present under `src/`;
the spec (§2 item 4, §4.5) describes it as pure functions mapping
(question, retrieved data) to role-tagged message lists with no control
flow, so the message bodies below are modelled from the spec. -/

/-- Renders an optional JSON slot the way Python f-string interpolation
renders `None` or a value. -/
def renderOptJson : Option Json → String
  | none => "None"
  | some j => j.render

/-- Renders an optional string slot. -/
def renderOptStr : Option String → String
  | none => "None"
  | some s => s

/-- Modelled from the spec: `prompts.py` is missing from `src/`; per §4.5
each analysis prompt is a pure function of (question, that source's data). -/
def get_google_analysis_messages (question : String)
    (results : Option Json) : List Message :=
  [⟨"system", "Analyze the Google search results."⟩,
   ⟨"user", question ++ "\n" ++ renderOptJson results⟩]

/-- Modelled from the spec: `prompts.py` is missing from `src/`; per §4.5
each analysis prompt is a pure function of (question, that source's data). -/
def get_bing_analysis_messages (question : String)
    (results : Option Json) : List Message :=
  [⟨"system", "Analyze the Bing search results."⟩,
   ⟨"user", question ++ "\n" ++ renderOptJson results⟩]

/-- Modelled from the spec: `prompts.py` is missing from `src/`; per §4.5
the social-source prompt additionally takes the deep-dive data. -/
def get_reddit_analysis_messages (question : String)
    (results postData : Option Json) : List Message :=
  [⟨"system", "Analyze the Reddit results."⟩,
   ⟨"user", question ++ "\n" ++ renderOptJson results ++ "\n"
              ++ renderOptJson postData⟩]

/-- Modelled from the spec: `prompts.py` is missing from `src/`; per §4.3
the selection prompt is a pure function of (question, raw social results). -/
def get_reddit_url_analysis_messages (question : String)
    (results : Json) : List Message :=
  [⟨"system", "Select the Reddit URLs worth a deep dive."⟩,
   ⟨"user", question ++ "\n" ++ results.render⟩]

/-- Modelled from the spec: `prompts.py` is missing from `src/`; per §4.5
synthesis formats a final prompt from the question and the three
analysis texts. -/
def get_synthesis_messages (question : String)
    (googleAnalysis bingAnalysis redditAnalysis : Option String) :
    List Message :=
  [⟨"system", "Synthesize the three analyses into a final answer."⟩,
   ⟨"user", question ++ "\n" ++ renderOptStr googleAnalysis ++ "\n"
              ++ renderOptStr bingAnalysis ++ "\n"
              ++ renderOptStr redditAnalysis⟩]

/-! ## `pipeline.py` -/

/-- Embeds the LangGraph `State` TypedDict (`pipeline.py:36`): every field
`run_research` initialises to `None` is an `Option`. -/
structure State where
  messages : List Message
  user_question : Option String
  google_results : Option Json
  bing_results : Option Json
  reddit_results : Option Json
  selected_reddit_urls : Option (List String)
  reddit_post_data : Option Json
  google_analysis : Option String
  bing_analysis : Option String
  reddit_analysis : Option String
  final_answer : Option String
  config : Config
  llm : LLM

/-- Embeds the `google_search` node body (`pipeline.py:65`): a `serp_search`
call with engine `google` and the configured key.  The `print`-only
try/except around the result count is not modelled. -/
def google_search (gw : Gateway) (s : State) :
    Except PyErr (Option Json) × List Call :=
  serp_search gw (pyStrOr s.user_question) "google" s.config.brightdata_api_key

/-- Embeds the `bing_search` node body (`pipeline.py:80`). -/
def bing_search (gw : Gateway) (s : State) :
    Except PyErr (Option Json) × List Call :=
  serp_search gw (pyStrOr s.user_question) "bing" s.config.brightdata_api_key

/-- Embeds the `reddit_search` node body (`pipeline.py:95`): a
`reddit_search_api` call with the configured key and dataset id. -/
def reddit_search (gw : Gateway) (s : State) :
    Except PyErr (Option Json) × List Call :=
  reddit_search_api gw (pyStrOr s.user_question)
    s.config.brightdata_api_key s.config.reddit_dataset_id

/-- Embeds the `analyze_reddit_posts` node body (`pipeline.py:112`): a falsy
`reddit_results` short-circuits to the empty selection before the model
client is touched; otherwise the structured-output call runs inside
`try/except` and any exception degrades to the empty selection. -/
def analyze_reddit_posts (s : State) : List String × List Call :=
  match s.reddit_results with
  | none => ([], [])
  | some r =>
    if ¬ pyTruthy r then ([], [])
    else
      let msgs := get_reddit_url_analysis_messages (pyStrOr s.user_question) r
      match s.llm.invokeStructured msgs with
      | .ok urls => (urls, [Call.llmStructured msgs])
      | .error _ => ([], [Call.llmStructured msgs])

/-- Embeds the `retrieve_reddit_posts` node body (`pipeline.py:134`): an
empty (or absent) selection short-circuits to the empty list `[]`;
otherwise `reddit_post_retrieval` runs — its `ValueError`s propagate —
and a falsy result is replaced by the empty list `[]`. -/
def retrieve_reddit_posts (gw : Gateway) (s : State) :
    Except PyErr Json × List Call :=
  let urls := s.selected_reddit_urls.getD []
  if urls = [] then (.ok (.arr []), [])
  else
    match reddit_post_retrieval gw urls s.config.brightdata_api_key
        s.config.reddit_comments_dataset_id with
    | (.error e, log) => (.error e, log)
    | (.ok raw, log) =>
      (.ok (match raw with
            | some j => if pyTruthy j then j else .arr []
            | none => .arr []), log)

/-- Embeds the `analyze_google_results` node body (`pipeline.py:156`): one
plain model invocation with no `try/except`; a model failure propagates. -/
def analyze_google_results (s : State) : Except PyErr String × List Call :=
  let msgs := get_google_analysis_messages (pyStrOr s.user_question)
    s.google_results
  (s.llm.invoke msgs, [Call.llmInvoke msgs])

/-- Embeds the `analyze_bing_results` node body (`pipeline.py:166`). -/
def analyze_bing_results (s : State) : Except PyErr String × List Call :=
  let msgs := get_bing_analysis_messages (pyStrOr s.user_question)
    s.bing_results
  (s.llm.invoke msgs, [Call.llmInvoke msgs])

/-- Embeds the `analyze_reddit_results` node body (`pipeline.py:176`). -/
def analyze_reddit_results (s : State) : Except PyErr String × List Call :=
  let msgs := get_reddit_analysis_messages (pyStrOr s.user_question)
    s.reddit_results s.reddit_post_data
  (s.llm.invoke msgs, [Call.llmInvoke msgs])

/-- Embeds the `synthesize_analyses` node body (`pipeline.py:189`): one plain
model invocation with no `try/except`, whose reply text becomes the final
answer. -/
def synthesize_analyses (s : State) : Except PyErr String × List Call :=
  let msgs := get_synthesis_messages (pyStrOr s.user_question)
    s.google_analysis s.bing_analysis s.reddit_analysis
  (s.llm.invoke msgs, [Call.llmInvoke msgs])

/-! The LangGraph node wrappers: each node merges the partial update the
source function returns (`{"field": value}`) into the run state, touching
only the fields the source dict names.  A raised exception aborts the
whole graph invocation. -/

/-- Node wrapper merging `{"google_results": v}`. -/
def google_node (gw : Gateway) (s : State) : Except PyErr State × List Call :=
  match google_search gw s with
  | (.ok v, log) => (.ok { s with google_results := v }, log)
  | (.error e, log) => (.error e, log)

/-- Node wrapper merging `{"bing_results": v}`. -/
def bing_node (gw : Gateway) (s : State) : Except PyErr State × List Call :=
  match bing_search gw s with
  | (.ok v, log) => (.ok { s with bing_results := v }, log)
  | (.error e, log) => (.error e, log)

/-- Node wrapper merging `{"reddit_results": v}`. -/
def reddit_node (gw : Gateway) (s : State) : Except PyErr State × List Call :=
  match reddit_search gw s with
  | (.ok v, log) => (.ok { s with reddit_results := v }, log)
  | (.error e, log) => (.error e, log)

/-- Node wrapper merging `{"selected_reddit_urls": urls}` (the selection
node itself never raises). -/
def select_node (s : State) : Except PyErr State × List Call :=
  match analyze_reddit_posts s with
  | (urls, log) => (.ok { s with selected_reddit_urls := some urls }, log)

/-- Node wrapper merging `{"reddit_post_data": v}`. -/
def retrieve_node (gw : Gateway) (s : State) : Except PyErr State × List Call :=
  match retrieve_reddit_posts gw s with
  | (.ok v, log) => (.ok { s with reddit_post_data := some v }, log)
  | (.error e, log) => (.error e, log)

/-- Node wrapper merging `{"google_analysis": t}`. -/
def analyze_google_node (s : State) : Except PyErr State × List Call :=
  match analyze_google_results s with
  | (.ok t, log) => (.ok { s with google_analysis := some t }, log)
  | (.error e, log) => (.error e, log)

/-- Node wrapper merging `{"bing_analysis": t}`. -/
def analyze_bing_node (s : State) : Except PyErr State × List Call :=
  match analyze_bing_results s with
  | (.ok t, log) => (.ok { s with bing_analysis := some t }, log)
  | (.error e, log) => (.error e, log)

/-- Node wrapper merging `{"reddit_analysis": t}`. -/
def analyze_reddit_node (s : State) : Except PyErr State × List Call :=
  match analyze_reddit_results s with
  | (.ok t, log) => (.ok { s with reddit_analysis := some t }, log)
  | (.error e, log) => (.error e, log)

/-- Node wrapper merging `{"final_answer": t, "messages": [assistant t]}`;
the `add_messages` reducer appends the assistant entry to the log. -/
def synthesize_node (s : State) : Except PyErr State × List Call :=
  match synthesize_analyses s with
  | (.ok t, log) =>
    (.ok { s with final_answer := some t,
                  messages := s.messages ++ [⟨"assistant", t⟩] }, log)
  | (.error e, log) => (.error e, log)

/-- Sequencing of graph supersteps: a raised exception short-circuits the
remaining nodes; call logs concatenate. -/
def stepOk (r : Except PyErr State × List Call)
    (f : State → Except PyErr State × List Call) :
    Except PyErr State × List Call :=
  match r with
  | (.error e, log) => (.error e, log)
  | (.ok s, log) =>
    match f s with
    | (r2, log2) => (r2, log ++ log2)

/-- The initial state built by `run_research` (`pipeline.py:264`). -/
def initState (question : String) (config : Config) (llm : LLM) : State :=
  { messages := [⟨"user", question⟩]
    user_question := some question
    google_results := none
    bing_results := none
    reddit_results := none
    selected_reddit_urls := none
    reddit_post_data := none
    google_analysis := none
    bing_analysis := none
    reddit_analysis := none
    final_answer := none
    config := config
    llm := llm }

/-- Embeds `run_research` (`pipeline.py:246`) driving the compiled graph
(`build_graph`, `pipeline.py:208`): the three retrieval nodes, the
selection barrier, the deep-dive node, the three analysis nodes, and the
synthesis node, executed in an order consistent with the declared edges
(siblings in a fan-out group touch disjoint fields, so the sequential
order within a group is immaterial to the resulting state). -/
def run_research (gw : Gateway) (question : String) (config : Config)
    (llm : LLM) : Except PyErr State × List Call :=
  stepOk (stepOk (stepOk (stepOk (stepOk (stepOk (stepOk (stepOk
    (google_node gw (initState question config llm))
    (bing_node gw)) (reddit_node gw)) select_node) (retrieve_node gw))
    analyze_google_node) analyze_bing_node) analyze_reddit_node)
    synthesize_node

/-! ## Spec-side shapes and concrete environments -/

/-- Modelled from the spec: §8 scenario 7 and §4.4 call the shape
`{comments: [], total_retrieved: 0}` "an empty structured payload with
zero count".  Used to compare the spec's expected value against what the
code actually produces. -/
def emptyCommentsPayload : Json :=
  .obj [("comments", .arr []), ("total_retrieved", .num 0)]

/-- A gateway whose every HTTP call raises (connection refused). -/
def gwDead : Gateway :=
  { post := fun _ _ _ => .error ()
    progress := fun _ _ => .error ()
    snapshot := fun _ => .error () }

/-- A gateway whose progress endpoint always reports a `failed` snapshot. -/
def gwFailed : Gateway :=
  { post := fun _ _ _ => .error ()
    progress := fun _ _ => .ok (.obj [("status", .str "failed")])
    snapshot := fun _ => .error () }

/-- A gateway whose every POST returns the JSON number `5` (a truthy
non-dict body). -/
def gwNum : Gateway :=
  { post := fun _ _ _ => .ok (.num 5)
    progress := fun _ _ => .error ()
    snapshot := fun _ => .error () }

/-- A deterministic language model that answers `"A"` to every plain call
and selects no URLs. -/
def llmOk : LLM :=
  { invoke := fun _ => .ok "A"
    invokeStructured := fun _ => .ok [] }

/-- A config bundle with all three credentials present. -/
def cfgFull : Config :=
  { brightdata_api_key := some "k"
    reddit_dataset_id := some "d"
    reddit_comments_dataset_id := some "c" }

/-! ## Helper lemmas about call logs -/

theorem make_api_request_not_structured (gw : Gateway) (url : String)
    (p : Option Json) (b : Json) :
    ∀ c ∈ (make_api_request gw url p b).snd, c.isStructured = false := by
  unfold make_api_request
  cases gw.post url p b <;> simp [Call.isStructured]

theorem poll_aux_not_structured (gw : Gateway) (sid : String) (delay : Nat) :
    ∀ fuel i, ∀ c ∈ (poll_aux gw sid delay i fuel).calls,
      c.isStructured = false := by
  intro fuel
  induction fuel with
  | zero => intro i c hc; exact absurd hc (List.not_mem_nil c)
  | succ n ih =>
    intro i
    unfold poll_aux
    cases gw.progress sid i with
    | error e => simpa [Call.isStructured] using ih (i + 1)
    | ok j =>
      rcases hpg : pyGet j "status" .null with e | st
      · simpa [hpg, Call.isStructured] using ih (i + 1)
      · cases st
        case str s =>
          by_cases h1 : s = "ready"
          · simp [hpg, h1, Call.isStructured]
          · by_cases h2 : s = "failed"
            · simp [hpg, h1, h2, Call.isStructured]
            · simpa [hpg, h1, h2, Call.isStructured] using ih (i + 1)
        all_goals simpa [hpg, Call.isStructured] using ih (i + 1)

theorem download_snapshot_not_structured (gw : Gateway) (sid : String) :
    ∀ c ∈ (download_snapshot gw sid).snd, c.isStructured = false := by
  unfold download_snapshot
  cases gw.snapshot sid <;> simp [Call.isStructured]

theorem trigger_not_structured (gw : Gateway) (tu : String)
    (params data : Json) :
    ∀ c ∈ (trigger_and_download_snapshot gw tu params data).snd,
      c.isStructured = false := by
  unfold trigger_and_download_snapshot
  rcases hm : make_api_request gw tu (some params) data with ⟨r, l⟩
  have hl : ∀ c ∈ l, c.isStructured = false := by
    have := make_api_request_not_structured gw tu (some params) data
    rw [hm] at this; exact this
  cases r with
  | none => simpa using hl
  | some t =>
    by_cases ht : pyTruthy t
    · rcases hpg : pyGet t "snapshot_id" .null with e | sid
      · simpa [ht, hpg] using hl
      · by_cases hs : pyTruthy sid
        · simp only [ht, hpg, hs, not_true_eq_false, if_false, Bool.not_true]
          by_cases hpr : (poll_snapshot_status gw sid.render).result = true
          · simp only [poll_snapshot_status] at hpr
            simp only [hpr, if_true, poll_snapshot_status]
            intro c hc
            rcases List.mem_append.mp hc with h1 | h2
            · rcases List.mem_append.mp h1 with h3 | h4
              · exact hl c h3
              · exact poll_aux_not_structured gw sid.render 5 60 0 c h4
            · have := download_snapshot_not_structured gw sid.render
              exact this c h2
          · simp only [poll_snapshot_status] at hpr
            simp only [hpr, if_false, poll_snapshot_status, Bool.false_eq_true]
            intro c hc
            rcases List.mem_append.mp hc with h1 | h2
            · exact hl c h1
            · exact poll_aux_not_structured gw sid.render 5 60 0 c h2
        · simpa [ht, hpg, hs] using hl
    · simpa [ht] using hl

theorem serp_search_not_structured (gw : Gateway) (q e : String)
    (k : Option String) :
    ∀ c ∈ (serp_search gw q e k).snd, c.isStructured = false := by
  unfold serp_search
  by_cases he : e = "google" ∨ e = "bing"
  · simp only [he, if_true]
    rcases hm : make_api_request gw serpRequestUrl none
        (serpPayload (if e = "google" then "https://www.google.com/search"
          else "https://www.bing.com/search") q) with ⟨r, l⟩
    have hl : ∀ c ∈ l, c.isStructured = false := by
      have := make_api_request_not_structured gw serpRequestUrl none
        (serpPayload (if e = "google" then "https://www.google.com/search"
          else "https://www.bing.com/search") q)
      rw [hm] at this; exact this
    cases r with
    | none => simpa using hl
    | some full =>
      by_cases ht : pyTruthy full
      · cases full <;> simpa [ht] using hl
      · simpa [ht] using hl
  · simp [he]

theorem reddit_search_api_not_structured (gw : Gateway) (kw : String)
    (key dsid : Option String) :
    ∀ c ∈ (reddit_search_api gw kw key dsid).snd, c.isStructured = false := by
  unfold reddit_search_api
  by_cases h1 : optStrTruthy dsid
  · by_cases h2 : optStrTruthy key
    · simp only [h1, h2, not_true_eq_false, if_false]
      rcases hm : trigger_and_download_snapshot gw triggerUrl _ _ with ⟨r, l⟩
      have hl : ∀ c ∈ l, c.isStructured = false := by
        have := trigger_not_structured gw triggerUrl
          (Json.obj [("dataset_id", .str (pyStrOr dsid)),
                     ("include_errors", .str "true"),
                     ("type", .str "discover_new"),
                     ("discover_by", .str "keyword")])
          (Json.arr [Json.obj [("keyword", .str kw),
                               ("date", .str "All time"),
                               ("sort_by", .str "Hot"),
                               ("num_of_posts", .num 75)]])
        rw [hm] at this; exact this
      rcases r with e | raw
      · simpa using hl
      · rcases raw with _ | r
        · simpa using hl
        · by_cases ht : pyTruthy r
          · cases r <;> simpa [ht] using hl
          · simpa [ht] using hl
    · simp [h1, h2]
  · simp [h1]

/-! ## Helper lemmas for the polling loop -/

/-- The snapshot status the polling loop would observe on attempt `i`:
`some s` when the progress GET succeeds with a dict carrying a string
`status`, `none` when the GET raises or the body yields no string status. -/
def statusAt (gw : Gateway) (sid : String) (i : Nat) : Option String :=
  match gw.progress sid i with
  | .error _ => none
  | .ok j =>
    match pyGet j "status" .null with
    | .ok (.str s) => some s
    | _ => none

theorem poll_aux_succ_eq (gw : Gateway) (sid : String) (delay i n : Nat) :
    poll_aux gw sid delay i (n + 1) =
      if statusAt gw sid i = some "ready" then
        ⟨true, 1, 0, [Call.get (progressUrl sid)]⟩
      else if statusAt gw sid i = some "failed" then
        ⟨false, 1, 0, [Call.get (progressUrl sid)]⟩
      else
        ⟨(poll_aux gw sid delay (i + 1) n).result,
         (poll_aux gw sid delay (i + 1) n).attempts + 1,
         (poll_aux gw sid delay (i + 1) n).sleep + delay,
         Call.get (progressUrl sid) :: (poll_aux gw sid delay (i + 1) n).calls⟩ := by
  rcases hp : gw.progress sid i with e | j
  · simp [poll_aux, statusAt, hp]
  · rcases hpg : pyGet j "status" .null with e | st
    · simp [poll_aux, statusAt, hp, hpg]
    · cases st
      case str s =>
        by_cases h1 : s = "ready" <;> by_cases h2 : s = "failed" <;>
          simp [poll_aux, statusAt, hp, hpg, h1, h2]
      all_goals simp [poll_aux, statusAt, hp, hpg]

theorem poll_aux_attempts_le (gw : Gateway) (sid : String) (delay : Nat) :
    ∀ fuel i, (poll_aux gw sid delay i fuel).attempts ≤ fuel := by
  intro fuel
  induction fuel with
  | zero => intro i; exact Nat.le_refl 0
  | succ n ih =>
    intro i
    rw [poll_aux_succ_eq]
    split_ifs
    · simp
    · simp
    · exact Nat.succ_le_succ (ih (i + 1))

theorem poll_aux_sleep_le (gw : Gateway) (sid : String) (delay : Nat) :
    ∀ fuel i, (poll_aux gw sid delay i fuel).sleep ≤ fuel * delay := by
  intro fuel
  induction fuel with
  | zero => intro i; simp [poll_aux]
  | succ n ih =>
    intro i
    have hstep : (poll_aux gw sid delay (i + 1) n).sleep + delay ≤
        (n + 1) * delay := by
      have := ih (i + 1)
      calc (poll_aux gw sid delay (i + 1) n).sleep + delay
          ≤ n * delay + delay := Nat.add_le_add_right this delay
        _ = (n + 1) * delay := (Nat.succ_mul n delay).symm
    rw [poll_aux_succ_eq]
    split_ifs
    · simp
    · simp
    · exact hstep

theorem poll_aux_result_ready (gw : Gateway) (sid : String) (delay : Nat) :
    ∀ fuel i, (poll_aux gw sid delay i fuel).result = true →
      ∃ k, k < fuel ∧ statusAt gw sid (i + k) = some "ready" := by
  intro fuel
  induction fuel with
  | zero => intro i h; exact absurd h (by simp [poll_aux])
  | succ n ih =>
    intro i h
    rw [poll_aux_succ_eq] at h
    split_ifs at h with h1 h2
    · exact ⟨0, Nat.succ_pos n, by simpa using h1⟩
    · obtain ⟨k, hk, hs⟩ := ih (i + 1) h
      refine ⟨k + 1, Nat.succ_lt_succ hk, ?_⟩
      have hik : i + (k + 1) = i + 1 + k := by omega
      rw [hik]; exact hs

/-- C9: `poll_snapshot_status` performs at most `max_attempts` attempts,
sleeps a fixed `delay` between attempts (at most `max_attempts * delay`
seconds in total), returns `False` when no attempt within the bound
observes a `ready` status (in particular on exhaustion), and returns
`False` immediately — after a single attempt — when the first attempt
reports a `failed` status. -/
theorem poll_bounded (gw : Gateway) (sid : String)
    (max_attempts delay : Nat) :
    (poll_snapshot_status gw sid max_attempts delay).attempts ≤ max_attempts ∧
    (poll_snapshot_status gw sid max_attempts delay).sleep ≤
      max_attempts * delay ∧
    ((∀ i, i < max_attempts → statusAt gw sid i ≠ some "ready") →
      (poll_snapshot_status gw sid max_attempts delay).result = false) ∧
    (0 < max_attempts → statusAt gw sid 0 = some "failed" →
      (poll_snapshot_status gw sid max_attempts delay).result = false ∧
      (poll_snapshot_status gw sid max_attempts delay).attempts = 1) := by
  refine ⟨poll_aux_attempts_le gw sid delay max_attempts 0,
    poll_aux_sleep_le gw sid delay max_attempts 0, ?_, ?_⟩
  · intro hnone
    by_contra hres
    have hr : (poll_snapshot_status gw sid max_attempts delay).result = true := by
      cases hb : (poll_snapshot_status gw sid max_attempts delay).result
      · exact absurd hb hres
      · rfl
    obtain ⟨k, hk, hs⟩ := poll_aux_result_ready gw sid delay max_attempts 0 hr
    exact hnone k hk (by simpa using hs)
  · intro hpos hfail
    obtain ⟨m, rfl⟩ : ∃ m, max_attempts = m + 1 := ⟨max_attempts - 1, by omega⟩
    have hres : poll_snapshot_status gw sid (m + 1) delay =
        ⟨false, 1, 0, [Call.get (progressUrl sid)]⟩ := by
      unfold poll_snapshot_status
      rw [poll_aux_succ_eq, if_neg (by rw [hfail]; simp), if_pos hfail]
    exact ⟨by rw [hres], by rw [hres]⟩

/-- Witness for C9 at a gateway whose progress endpoint always reports
`failed`: polling stops after one attempt with a failure result. -/
theorem poll_bounded_witness :
    (poll_snapshot_status gwFailed "s" 3 2).result = false ∧
    (poll_snapshot_status gwFailed "s" 3 2).attempts = 1 :=
  ⟨(poll_bounded gwFailed "s" 3 2).2.2.1 (by decide),
   ((poll_bounded gwFailed "s" 3 2).2.2.2 (by decide) rfl).2⟩

/-! ## C5 — empty selection short-circuits the deep dive -/

/-- C5 (amended): when `selected_reddit_urls` is absent or the empty
sequence, `retrieve_reddit_posts` performs no external call at all (its
call log is empty, so in particular the gateway's deep-dive operation is
not invoked) and sets `reddit_post_data` to the empty list `[]` — the
empty payload the code actually produces, rather than the
`{comments: [], total_retrieved: 0}` shape the spec names. -/
theorem empty_selection_no_deep_dive (gw : Gateway) (s : State)
    (h : s.selected_reddit_urls = none ∨ s.selected_reddit_urls = some []) :
    retrieve_reddit_posts gw s = (.ok (.arr []), []) := by
  unfold retrieve_reddit_posts
  rcases h with h | h <;> simp [h]

/-- A state whose selection stage produced the empty selection. -/
def stateEmptySel : State :=
  { initState "q" cfgFull llmOk with selected_reddit_urls := some [] }

/-- Witness for C5's amended theorem at a concrete state. -/
theorem empty_selection_no_deep_dive_witness :
    retrieve_reddit_posts gwDead stateEmptySel = (.ok (.arr []), []) :=
  empty_selection_no_deep_dive gwDead stateEmptySel (Or.inr rfl)

/-- Counterexample to C5 as stated: on an empty selection the stage stores
the empty list `[]` as `reddit_post_data`, which is not the
`{comments: [], total_retrieved: 0}` zero-count payload the spec
describes. -/
theorem empty_selection_payload_shape_counterexample :
    (retrieve_reddit_posts gwDead stateEmptySel).fst = .ok (.arr []) ∧
    Json.arr [] ≠ emptyCommentsPayload :=
  ⟨rfl, fun h => Json.noConfusion h⟩

/-! ## C6 — credential validation in the retrieval operations -/

/-- C6 (amended): the two social retrieval operations fail fast — with a
`ValueError` naming exactly the missing parameter and an empty call log,
so before any network call — when their dataset id or API key is missing;
the SERP retrieval path performs no such validation (see the
counterexample). -/
theorem social_credential_validation :
    (∀ (gw : Gateway) (kw : String) (key dsid : Option String),
      optStrTruthy dsid = false →
        reddit_search_api gw kw key dsid =
          (.error (.valueError "dataset_id is required for Reddit search"),
           [])) ∧
    (∀ (gw : Gateway) (kw : String) (key dsid : Option String),
      optStrTruthy dsid = true → optStrTruthy key = false →
        reddit_search_api gw kw key dsid =
          (.error (.valueError "api_key is required for Reddit search"),
           [])) ∧
    (∀ (gw : Gateway) (urls : List String) (key cdsid : Option String),
      urls ≠ [] → optStrTruthy cdsid = false →
        reddit_post_retrieval gw urls key cdsid =
          (.error (.valueError
            "comments_dataset_id is required for Reddit comments retrieval"),
           [])) ∧
    (∀ (gw : Gateway) (urls : List String) (key cdsid : Option String),
      urls ≠ [] → optStrTruthy cdsid = true → optStrTruthy key = false →
        reddit_post_retrieval gw urls key cdsid =
          (.error (.valueError
            "api_key is required for Reddit comments retrieval"), [])) := by
  refine ⟨?_, ?_, ?_, ?_⟩
  · intro gw kw key dsid h
    unfold reddit_search_api
    simp [h]
  · intro gw kw key dsid h1 h2
    unfold reddit_search_api
    simp [h1, h2]
  · intro gw urls key cdsid h1 h2
    unfold reddit_post_retrieval
    simp [h1, h2]
  · intro gw urls key cdsid h1 h2 h3
    unfold reddit_post_retrieval
    simp [h1, h2, h3]

/-- Witness for C6's amended theorem: each of the four validation branches
exercised at concrete inputs. -/
theorem social_credential_validation_witness :
    reddit_search_api gwDead "q" (some "k") none =
      (.error (.valueError "dataset_id is required for Reddit search"), []) ∧
    reddit_search_api gwDead "q" none (some "d") =
      (.error (.valueError "api_key is required for Reddit search"), []) ∧
    reddit_post_retrieval gwDead ["u"] (some "k") none =
      (.error (.valueError
        "comments_dataset_id is required for Reddit comments retrieval"),
       []) ∧
    reddit_post_retrieval gwDead ["u"] none (some "c") =
      (.error (.valueError
        "api_key is required for Reddit comments retrieval"), []) :=
  ⟨social_credential_validation.1 gwDead "q" (some "k") none rfl,
   social_credential_validation.2.1 gwDead "q" none (some "d") rfl rfl,
   social_credential_validation.2.2.1 gwDead ["u"] (some "k") none
     (by simp) rfl,
   social_credential_validation.2.2.2 gwDead ["u"] none (some "c")
     (by simp) rfl rfl⟩

/-- Counterexample to C6 as stated: `serp_search` — the retrieval path of
the google/bing stages, which needs the Bright Data key for its auth
header — raises nothing when the key is absent and still performs one
network request, instead of failing fast before any network call. -/
theorem serp_missing_key_counterexample :
    (serp_search gwDead "q" "google" none).fst = .ok none ∧
    (serp_search gwDead "q" "google" none).snd.countP Call.isNet = 1 :=
  ⟨rfl, rfl⟩

/-! ## C8 — deep-dive normalization -/

/-- The normal form of one raw comment record, as built by the loop in
`reddit_post_retrieval` (`web_operations.py:224`). -/
def normalizeComment : Json → Json
  | .obj kvs =>
    .obj [("comment_id", objGet kvs "comment_id" (.str "No ID")),
          ("content", objGet kvs "comment" (.str "No content")),
          ("date", objGet kvs "date_posted" (.str "No date"))]
  | j => j

theorem parseComments_eq_filter_map (xs : List Json) :
    parseComments xs = (xs.filter Json.isObj).map normalizeComment := by
  induction xs with
  | nil => rfl
  | cons x rest ih =>
    cases x <;> simp [parseComments, Json.isObj, normalizeComment, ih,
      List.filter]

/-- C8 (amended): for every non-empty raw list the provider returns for a
non-empty URL batch, `reddit_post_retrieval` keeps exactly the dictionary
entries, normalizes each into a `{comment_id, content, date}` record, and
reports `total_retrieved` equal to the number of retained records.  (An
empty raw list is returned as an absent result instead — see the
counterexample.) -/
theorem deep_dive_normalization (gw : Gateway) (urls : List String)
    (key cdsid : Option String) (sid : String) (xs : List Json)
    (hurls : urls ≠ [])
    (hkey : optStrTruthy key = true)
    (hcd : optStrTruthy cdsid = true)
    (htrig : gw.post triggerUrl
      (some (Json.obj [("dataset_id", .str (pyStrOr cdsid)),
                       ("include_errors", .str "true")]))
      (Json.arr (urls.map fun u =>
        Json.obj [("url", .str u), ("days_back", .num 10),
                  ("load_all_replies", .bool false),
                  ("comment_limit", .str "")]))
      = .ok (.obj [("snapshot_id", .str sid)]))
    (hsid : sid ≠ "")
    (hprog : gw.progress sid 0 = .ok (.obj [("status", .str "ready")]))
    (hsnap : gw.snapshot sid = .ok (.arr xs))
    (hxs : xs ≠ []) :
    (reddit_post_retrieval gw urls key cdsid).fst =
      .ok (some (.obj
        [("comments", .arr ((xs.filter Json.isObj).map normalizeComment)),
         ("total_retrieved", .num ((xs.filter Json.isObj).length))])) := by
  have hpoll : poll_snapshot_status gw sid 60 5 =
      ⟨true, 1, 0, [Call.get (progressUrl sid)]⟩ := by
    unfold poll_snapshot_status
    rw [show (60 : Nat) = 59 + 1 from rfl, poll_aux_succ_eq,
      if_pos (by simp [statusAt, hprog, pyGet, objGet, objLookup])]
  have hrender : (Json.str sid).render = sid := by
    simp [Json.render]
  unfold reddit_post_retrieval
  simp only [hurls, hcd, hkey, not_true_eq_false, if_false, ite_false]
  unfold trigger_and_download_snapshot make_api_request
  rw [htrig]
  simp only [pyTruthy, List.isEmpty, not_false_eq_true, if_true,
    Bool.not_false]
  rw [show pyGet (Json.obj [("snapshot_id", Json.str sid)]) "snapshot_id"
      Json.null = .ok (.str sid) from rfl]
  simp only [pyTruthy, hrender]
  rw [if_neg (by simp [hsid])]
  rw [hpoll]
  unfold download_snapshot
  rw [hsnap]
  obtain ⟨y, ys, rfl⟩ := List.exists_cons_of_ne_nil hxs
  simp [pyTruthy, hsid, parseComments_eq_filter_map]

/-- A gateway for the deep-dive witness: trigger yields snapshot `s1`,
which is immediately ready and downloads two raw entries, one dict and
one malformed string. -/
def gwComments : Gateway :=
  { post := fun _ _ _ => .ok (.obj [("snapshot_id", .str "s1")])
    progress := fun _ _ => .ok (.obj [("status", .str "ready")])
    snapshot := fun _ => .ok (.arr
      [.obj [("comment_id", .str "c1"), ("comment", .str "hello"),
             ("date_posted", .str "2024-01-01")],
       .str "malformed"]) }

/-- Witness for C8's amended theorem: one well-formed and one malformed
raw entry; the malformed one is dropped and the count is the retained
number. -/
theorem deep_dive_normalization_witness :
    (reddit_post_retrieval gwComments ["u1"] (some "k") (some "c")).fst =
      .ok (some (.obj
        [("comments", .arr (((
            [.obj [("comment_id", .str "c1"), ("comment", .str "hello"),
                   ("date_posted", .str "2024-01-01")],
             .str "malformed"] : List Json).filter Json.isObj).map
              normalizeComment)),
         ("total_retrieved", .num ((([
            .obj [("comment_id", .str "c1"), ("comment", .str "hello"),
                  ("date_posted", .str "2024-01-01")],
            .str "malformed"] : List Json).filter Json.isObj).length))])) :=
  deep_dive_normalization gwComments ["u1"] (some "k") (some "c") "s1" _
    (by simp) rfl rfl rfl (by simp) rfl rfl (by simp)

/-- A gateway identical to `gwComments` except that the snapshot download
yields the empty raw list. -/
def gwCommentsEmpty : Gateway :=
  { post := fun _ _ _ => .ok (.obj [("snapshot_id", .str "s1")])
    progress := fun _ _ => .ok (.obj [("status", .str "ready")])
    snapshot := fun _ => .ok (.arr []) }

/-- Counterexample to C8 as stated: for the empty raw list — a raw list
the provider can return for a non-empty URL batch — the code returns the
absent result `None` rather than the normalized payload with zero count. -/
theorem deep_dive_empty_list_counterexample :
    (reddit_post_retrieval gwCommentsEmpty ["u1"] (some "k") (some "c")).fst
      = .ok none ∧
    (none : Option Json) ≠ some emptyCommentsPayload :=
  ⟨rfl, fun h => Option.noConfusion h⟩

/-! ## C10 — engine validation in `serp_search` -/

/-- C10 (amended): an unknown engine raises a `ValueError` naming it,
before any network request; for the two supported engines no engine
error is raised — a raising gateway (provider failure) yields an absent
result, a falsy response body likewise yields an absent result, and a
truthy dict response is extracted into a payload carrying exactly the
keys `knowledge` and `organic`.  (A truthy non-dict response raises an
`AttributeError` — see the counterexample.) -/
theorem serp_engine_validation :
    (∀ (gw : Gateway) (q e : String) (k : Option String),
      e ≠ "google" → e ≠ "bing" →
        serp_search gw q e k =
          (.error (.valueError ("Unknown engine " ++ e)), [])) ∧
    (∀ (gw : Gateway) (q e : String) (k : Option String),
      (e = "google" ∨ e = "bing") →
      (∀ p b, gw.post serpRequestUrl p b = .error ()) →
        (serp_search gw q e k).fst = .ok none) ∧
    (∀ (gw : Gateway) (q e : String) (k : Option String) (j : Json),
      (e = "google" ∨ e = "bing") →
      gw.post serpRequestUrl none
          (serpPayload (if e = "google" then "https://www.google.com/search"
            else "https://www.bing.com/search") q) = .ok j →
      pyTruthy j = false →
        (serp_search gw q e k).fst = .ok none) ∧
    (∀ (gw : Gateway) (q e : String) (k : Option String)
        (kvs : List (String × Json)),
      (e = "google" ∨ e = "bing") →
      gw.post serpRequestUrl none
          (serpPayload (if e = "google" then "https://www.google.com/search"
            else "https://www.bing.com/search") q) = .ok (.obj kvs) →
      kvs ≠ [] →
        (serp_search gw q e k).fst =
          .ok (some (.obj
            [("knowledge", objGet kvs "knowledge" (.obj [])),
             ("organic", objGet kvs "organic" (.arr []))]))) := by
  refine ⟨?_, ?_, ?_, ?_⟩
  · intro gw q e k h1 h2
    unfold serp_search
    simp [h1, h2]
  · intro gw q e k he hgw
    unfold serp_search make_api_request
    simp only [he, if_true]
    rw [hgw]
  · intro gw q e k j he hresp hj
    unfold serp_search make_api_request
    simp only [he, if_true]
    rw [hresp]
    simp [hj]
  · intro gw q e k kvs he hresp hkvs
    unfold serp_search make_api_request
    simp only [he, if_true]
    rw [hresp]
    simp [pyTruthy, hkvs]

/-- A gateway answering every POST with a truthy dict carrying only an
`organic` section. -/
def gwSerp : Gateway :=
  { post := fun _ _ _ => .ok (.obj [("organic", .arr [.str "r1"])])
    progress := fun _ _ => .error ()
    snapshot := fun _ => .error () }

/-- A gateway answering every POST with the empty dict — a falsy JSON
body. -/
def gwFalsy : Gateway :=
  { post := fun _ _ _ => .ok (.obj [])
    progress := fun _ _ => .error ()
    snapshot := fun _ => .error () }

/-- Witness for C10's amended theorem: the unknown-engine branch, the
raising-gateway branch, the falsy-response branch, and the extraction
branch at concrete inputs. -/
theorem serp_engine_validation_witness :
    serp_search gwDead "q" "duckduckgo" none =
      (.error (.valueError ("Unknown engine " ++ "duckduckgo")), []) ∧
    (serp_search gwDead "q" "google" (some "k")).fst = .ok none ∧
    (serp_search gwFalsy "q" "google" (some "k")).fst = .ok none ∧
    (serp_search gwSerp "q" "bing" (some "k")).fst =
      .ok (some (.obj
        [("knowledge", objGet [("organic", .arr [.str "r1"])] "knowledge"
            (.obj [])),
         ("organic", objGet [("organic", .arr [.str "r1"])] "organic"
            (.arr []))])) :=
  ⟨serp_engine_validation.1 gwDead "q" "duckduckgo" none (by decide)
     (by decide),
   serp_engine_validation.2.1 gwDead "q" "google" (some "k") (Or.inl rfl)
     (fun _ _ => rfl),
   serp_engine_validation.2.2.1 gwFalsy "q" "google" (some "k") (.obj [])
     (Or.inl rfl) rfl rfl,
   serp_engine_validation.2.2.2 gwSerp "q" "bing" (some "k")
     [("organic", .arr [.str "r1"])] (Or.inr rfl) rfl (by simp)⟩

/-- Counterexample to C10 as stated: with a provider answering the JSON
number `5` (truthy, not a dict), `serp_search` on the supported engine
`google` raises an `AttributeError` instead of never raising. -/
theorem serp_nondict_raises_counterexample :
    (serp_search gwNum "q" "google" (some "k")).fst =
      .error .attributeError :=
  rfl

/-! ## Equation lemmas for the driver chain -/

theorem stepOk_ok_eq {s : State} {l : List Call}
    {f : State → Except PyErr State × List Call} {s' : State}
    {l' : List Call} (h : f s = (.ok s', l')) :
    stepOk (.ok s, l) f = (.ok s', l ++ l') := by
  show (match f s with | (r2, log2) => ((r2 : Except PyErr State), l ++ log2))
    = (.ok s', l ++ l')
  rw [h]

theorem stepOk_ok_err_eq {s : State} {l : List Call}
    {f : State → Except PyErr State × List Call} {e : PyErr}
    {l' : List Call} (h : f s = (.error e, l')) :
    stepOk (.ok s, l) f = (.error e, l ++ l') := by
  show (match f s with | (r2, log2) => ((r2 : Except PyErr State), l ++ log2))
    = (.error e, l ++ l')
  rw [h]

theorem google_node_eq {gw : Gateway} {s : State} {v : Option Json}
    (h : (google_search gw s).fst = .ok v) :
    google_node gw s =
      (.ok { s with google_results := v }, (google_search gw s).snd) := by
  unfold google_node
  rw [show google_search gw s =
    ((google_search gw s).fst, (google_search gw s).snd) from rfl, h]

theorem bing_node_eq {gw : Gateway} {s : State} {v : Option Json}
    (h : (bing_search gw s).fst = .ok v) :
    bing_node gw s =
      (.ok { s with bing_results := v }, (bing_search gw s).snd) := by
  unfold bing_node
  rw [show bing_search gw s =
    ((bing_search gw s).fst, (bing_search gw s).snd) from rfl, h]

theorem reddit_node_eq {gw : Gateway} {s : State} {v : Option Json}
    (h : (reddit_search gw s).fst = .ok v) :
    reddit_node gw s =
      (.ok { s with reddit_results := v }, (reddit_search gw s).snd) := by
  unfold reddit_node
  rw [show reddit_search gw s =
    ((reddit_search gw s).fst, (reddit_search gw s).snd) from rfl, h]

theorem select_node_eq (s : State) :
    select_node s =
      (.ok { s with selected_reddit_urls := some (analyze_reddit_posts s).fst },
       (analyze_reddit_posts s).snd) := by
  unfold select_node
  rw [show analyze_reddit_posts s =
    ((analyze_reddit_posts s).fst, (analyze_reddit_posts s).snd) from rfl]

theorem retrieve_node_eq {gw : Gateway} {s : State} {v : Json}
    (h : (retrieve_reddit_posts gw s).fst = .ok v) :
    retrieve_node gw s =
      (.ok { s with reddit_post_data := some v },
       (retrieve_reddit_posts gw s).snd) := by
  unfold retrieve_node
  rw [show retrieve_reddit_posts gw s =
    ((retrieve_reddit_posts gw s).fst, (retrieve_reddit_posts gw s).snd)
      from rfl, h]

theorem analyze_google_node_eq {s : State} {t : String}
    (h : s.llm.invoke (get_google_analysis_messages (pyStrOr s.user_question)
      s.google_results) = .ok t) :
    analyze_google_node s =
      (.ok { s with google_analysis := some t },
       [Call.llmInvoke (get_google_analysis_messages (pyStrOr s.user_question)
          s.google_results)]) := by
  simp only [analyze_google_node, analyze_google_results]
  rw [h]

theorem analyze_google_node_err {s : State} {e : PyErr}
    (h : s.llm.invoke (get_google_analysis_messages (pyStrOr s.user_question)
      s.google_results) = .error e) :
    analyze_google_node s =
      (.error e,
       [Call.llmInvoke (get_google_analysis_messages (pyStrOr s.user_question)
          s.google_results)]) := by
  simp only [analyze_google_node, analyze_google_results]
  rw [h]

theorem analyze_bing_node_eq {s : State} {t : String}
    (h : s.llm.invoke (get_bing_analysis_messages (pyStrOr s.user_question)
      s.bing_results) = .ok t) :
    analyze_bing_node s =
      (.ok { s with bing_analysis := some t },
       [Call.llmInvoke (get_bing_analysis_messages (pyStrOr s.user_question)
          s.bing_results)]) := by
  simp only [analyze_bing_node, analyze_bing_results]
  rw [h]

theorem analyze_bing_node_err {s : State} {e : PyErr}
    (h : s.llm.invoke (get_bing_analysis_messages (pyStrOr s.user_question)
      s.bing_results) = .error e) :
    analyze_bing_node s =
      (.error e,
       [Call.llmInvoke (get_bing_analysis_messages (pyStrOr s.user_question)
          s.bing_results)]) := by
  simp only [analyze_bing_node, analyze_bing_results]
  rw [h]

theorem analyze_reddit_node_eq {s : State} {t : String}
    (h : s.llm.invoke (get_reddit_analysis_messages (pyStrOr s.user_question)
      s.reddit_results s.reddit_post_data) = .ok t) :
    analyze_reddit_node s =
      (.ok { s with reddit_analysis := some t },
       [Call.llmInvoke (get_reddit_analysis_messages
          (pyStrOr s.user_question) s.reddit_results s.reddit_post_data)]) := by
  simp only [analyze_reddit_node, analyze_reddit_results]
  rw [h]

theorem analyze_reddit_node_err {s : State} {e : PyErr}
    (h : s.llm.invoke (get_reddit_analysis_messages (pyStrOr s.user_question)
      s.reddit_results s.reddit_post_data) = .error e) :
    analyze_reddit_node s =
      (.error e,
       [Call.llmInvoke (get_reddit_analysis_messages
          (pyStrOr s.user_question) s.reddit_results s.reddit_post_data)]) := by
  simp only [analyze_reddit_node, analyze_reddit_results]
  rw [h]

theorem synthesize_node_eq {s : State} {t : String}
    (h : s.llm.invoke (get_synthesis_messages (pyStrOr s.user_question)
      s.google_analysis s.bing_analysis s.reddit_analysis) = .ok t) :
    synthesize_node s =
      (.ok { s with final_answer := some t,
                    messages := s.messages ++ [⟨"assistant", t⟩] },
       [Call.llmInvoke (get_synthesis_messages (pyStrOr s.user_question)
          s.google_analysis s.bing_analysis s.reddit_analysis)]) := by
  simp only [synthesize_node, synthesize_analyses]
  rw [h]

theorem serp_search_gw_down (gw : Gateway) (q : String) (k : Option String)
    (e : String) (he : e = "google" ∨ e = "bing")
    (hgw : ∀ p b, gw.post serpRequestUrl p b = .error ()) :
    serp_search gw q e k =
      (.ok none,
       [Call.net serpRequestUrl none
          (serpPayload (if e = "google" then "https://www.google.com/search"
            else "https://www.bing.com/search") q)]) := by
  unfold serp_search make_api_request
  rw [if_pos he]
  simp only [hgw]

theorem reddit_search_api_gw_down (gw : Gateway) (kw : String)
    (key dsid : Option String)
    (hkey : optStrTruthy key = true) (hds : optStrTruthy dsid = true)
    (hgw : ∀ p b, gw.post triggerUrl p b = .error ()) :
    reddit_search_api gw kw key dsid =
      (.ok none,
       [Call.net triggerUrl
          (some (Json.obj [("dataset_id", .str (pyStrOr dsid)),
                           ("include_errors", .str "true"),
                           ("type", .str "discover_new"),
                           ("discover_by", .str "keyword")]))
          (Json.arr [Json.obj [("keyword", .str kw),
                               ("date", .str "All time"),
                               ("sort_by", .str "Hot"),
                               ("num_of_posts", .num 75)]])]) := by
  unfold reddit_search_api trigger_and_download_snapshot make_api_request
  simp only [hkey, hds, not_true_eq_false, if_false]
  simp only [hgw]

/-- Decomposition of a successful driver run in which the social search
came back absent: selection and deep dive short-circuit, the three
analyses and the synthesis each perform one successful model call, and
the final state is spelled out field by field. -/
theorem run_research_reddit_absent_chain (gw : Gateway) (q : String)
    (cfg : Config) (llm : LLM) (f : List Message → String)
    (gv bv : Option Json) (gl bl rl : List Call)
    (hg : serp_search gw q "google" cfg.brightdata_api_key = (.ok gv, gl))
    (hb : serp_search gw q "bing" cfg.brightdata_api_key = (.ok bv, bl))
    (hr : reddit_search_api gw q cfg.brightdata_api_key
      cfg.reddit_dataset_id = (.ok none, rl))
    (hinv : ∀ m, llm.invoke m = .ok (f m)) :
    (run_research gw q cfg llm).fst = .ok
      { messages := [⟨"user", q⟩, ⟨"assistant",
          f (get_synthesis_messages q
            (some (f (get_google_analysis_messages q gv)))
            (some (f (get_bing_analysis_messages q bv)))
            (some (f (get_reddit_analysis_messages q none
              (some (.arr []))))))⟩]
        user_question := some q
        google_results := gv
        bing_results := bv
        reddit_results := none
        selected_reddit_urls := some []
        reddit_post_data := some (.arr [])
        google_analysis := some (f (get_google_analysis_messages q gv))
        bing_analysis := some (f (get_bing_analysis_messages q bv))
        reddit_analysis := some (f (get_reddit_analysis_messages q none
          (some (.arr []))))
        final_answer := some (f (get_synthesis_messages q
          (some (f (get_google_analysis_messages q gv)))
          (some (f (get_bing_analysis_messages q bv)))
          (some (f (get_reddit_analysis_messages q none
            (some (.arr [])))))))
        config := cfg
        llm := llm } := by
  simp only [run_research, stepOk, initState, google_node, bing_node,
    reddit_node, select_node, retrieve_node, analyze_google_node,
    analyze_bing_node, analyze_reddit_node, synthesize_node,
    google_search, bing_search, reddit_search, analyze_reddit_posts,
    retrieve_reddit_posts, analyze_google_results, analyze_bing_results,
    analyze_reddit_results, synthesize_analyses, pyStrOr, Option.getD,
    List.cons_append, List.nil_append, if_true, if_false, hg, hb, hr, hinv]

/-! ## C4 — gateway failures degrade to absent results -/

/-- C4: when every gateway POST raises (and the social credentials are
present, so the social stage reaches its gateway call), all three
`*_results` fields end up absent rather than an exception being raised,
and the run still reaches and completes the synthesize stage. -/
theorem gateway_failure_yields_absent_results (gw : Gateway) (q : String)
    (cfg : Config) (llm : LLM) (f : List Message → String)
    (hkey : optStrTruthy cfg.brightdata_api_key = true)
    (hds : optStrTruthy cfg.reddit_dataset_id = true)
    (hgw : ∀ u p b, gw.post u p b = .error ())
    (hinv : ∀ m, llm.invoke m = .ok (f m)) :
    ∃ s, (run_research gw q cfg llm).fst = .ok s ∧
      s.google_results = none ∧ s.bing_results = none ∧
      s.reddit_results = none ∧ s.final_answer.isSome = true := by
  have hrun := run_research_reddit_absent_chain gw q cfg llm f none none
    _ _ _
    (serp_search_gw_down gw q cfg.brightdata_api_key "google"
      (Or.inl rfl) (fun p b => hgw _ p b))
    (serp_search_gw_down gw q cfg.brightdata_api_key "bing"
      (Or.inr rfl) (fun p b => hgw _ p b))
    (reddit_search_api_gw_down gw q cfg.brightdata_api_key
      cfg.reddit_dataset_id hkey hds (fun p b => hgw _ p b))
    hinv
  exact ⟨_, hrun, rfl, rfl, rfl, rfl⟩

/-- Witness for C4: a dead gateway, full credentials, and a model that
always answers; the run completes with all three results absent. -/
theorem gateway_failure_yields_absent_results_witness :
    ∃ s, (run_research gwDead "q" cfgFull llmOk).fst = .ok s ∧
      s.google_results = none ∧ s.bing_results = none ∧
      s.reddit_results = none ∧ s.final_answer.isSome = true :=
  gateway_failure_yields_absent_results gwDead "q" cfgFull llmOk
    (fun _ => "A") rfl rfl (fun _ _ _ => rfl) (fun _ => rfl)

/-! ## C1 — absent social results degrade to empty selection and payload -/

/-- C1 (amended): in every run whose social search yields an absent
result, the selection stage returns the empty selection without
performing a single external call (in particular, without invoking the
language model), and the subsequent deep-dive stage stores the empty
list `[]` as `reddit_post_data` — the empty payload the code actually
produces, rather than the `{comments: [], total_retrieved: 0}`
zero-count shape the spec names. -/
theorem reddit_absent_degrades (gw : Gateway) (q : String) (cfg : Config)
    (llm : LLM) (f : List Message → String) (gv bv : Option Json)
    (gl bl rl : List Call)
    (hg : serp_search gw q "google" cfg.brightdata_api_key = (.ok gv, gl))
    (hb : serp_search gw q "bing" cfg.brightdata_api_key = (.ok bv, bl))
    (hr : reddit_search_api gw q cfg.brightdata_api_key
      cfg.reddit_dataset_id = (.ok none, rl))
    (hinv : ∀ m, llm.invoke m = .ok (f m)) :
    (∀ s', s'.reddit_results = none → analyze_reddit_posts s' = ([], [])) ∧
    ∃ s, (run_research gw q cfg llm).fst = .ok s ∧
      s.selected_reddit_urls = some [] ∧
      s.reddit_post_data = some (.arr []) := by
  refine ⟨?_, _, run_research_reddit_absent_chain gw q cfg llm f gv bv
    gl bl rl hg hb hr hinv, rfl, rfl⟩
  intro s' h
  unfold analyze_reddit_posts
  rw [h]

/-- Witness for C1's amended theorem at the dead gateway. -/
theorem reddit_absent_degrades_witness :
    ∃ s, (run_research gwDead "q" cfgFull llmOk).fst = .ok s ∧
      s.selected_reddit_urls = some [] ∧
      s.reddit_post_data = some (.arr []) :=
  (reddit_absent_degrades gwDead "q" cfgFull llmOk (fun _ => "A")
    none none _ _ _ rfl rfl rfl (fun _ => rfl)).2

/-- Counterexample to C1 as stated: in a run with `reddit_results`
absent, `reddit_post_data` ends up as the empty list `[]`, which is not
the `{comments: [], total_retrieved: 0}` zero-count payload the spec
describes. -/
theorem reddit_absent_payload_shape_counterexample :
    (∃ s, (run_research gwDead "q" cfgFull llmOk).fst = .ok s ∧
      s.reddit_results = none ∧ s.reddit_post_data = some (.arr [])) ∧
    Json.arr [] ≠ emptyCommentsPayload :=
  ⟨⟨_, rfl, rfl, rfl⟩, fun h => Json.noConfusion h⟩

/-! ## C3 — a throwing structured-output call degrades to empty selection -/

/-- Decomposition of a successful driver run in which the social search
came back present and truthy but the structured-output selection call
threw: the exception is swallowed, the selection is empty, the deep dive
short-circuits, and the run completes. -/
theorem run_research_selection_caught_chain (gw : Gateway) (q : String)
    (cfg : Config) (llm : LLM) (f : List Message → String)
    (gv bv : Option Json) (rj : Json) (eS : PyErr) (gl bl rl : List Call)
    (hg : serp_search gw q "google" cfg.brightdata_api_key = (.ok gv, gl))
    (hb : serp_search gw q "bing" cfg.brightdata_api_key = (.ok bv, bl))
    (hr : reddit_search_api gw q cfg.brightdata_api_key
      cfg.reddit_dataset_id = (.ok (some rj), rl))
    (hrt : pyTruthy rj = true)
    (hstruct : llm.invokeStructured
      (get_reddit_url_analysis_messages q rj) = .error eS)
    (hinv : ∀ m, llm.invoke m = .ok (f m)) :
    (run_research gw q cfg llm).fst = .ok
      { messages := [⟨"user", q⟩, ⟨"assistant",
          f (get_synthesis_messages q
            (some (f (get_google_analysis_messages q gv)))
            (some (f (get_bing_analysis_messages q bv)))
            (some (f (get_reddit_analysis_messages q (some rj)
              (some (.arr []))))))⟩]
        user_question := some q
        google_results := gv
        bing_results := bv
        reddit_results := some rj
        selected_reddit_urls := some []
        reddit_post_data := some (.arr [])
        google_analysis := some (f (get_google_analysis_messages q gv))
        bing_analysis := some (f (get_bing_analysis_messages q bv))
        reddit_analysis := some (f (get_reddit_analysis_messages q
          (some rj) (some (.arr []))))
        final_answer := some (f (get_synthesis_messages q
          (some (f (get_google_analysis_messages q gv)))
          (some (f (get_bing_analysis_messages q bv)))
          (some (f (get_reddit_analysis_messages q (some rj)
            (some (.arr [])))))))
        config := cfg
        llm := llm } := by
  simp only [run_research, stepOk, initState, google_node, bing_node,
    reddit_node, select_node, retrieve_node, analyze_google_node,
    analyze_bing_node, analyze_reddit_node, synthesize_node,
    google_search, bing_search, reddit_search, analyze_reddit_posts,
    retrieve_reddit_posts, analyze_google_results, analyze_bing_results,
    analyze_reddit_results, synthesize_analyses, pyStrOr, Option.getD,
    List.cons_append, List.nil_append, if_true, if_false, not_true,
    hg, hb, hr, hrt, hstruct, hinv]

/-- C3: when the social search is present and truthy and the
structured-output model call throws, the exception is caught, the
selection degrades to the empty sequence, and the run continues to a
successful synthesis instead of aborting. -/
theorem selection_failure_degrades (gw : Gateway) (q : String)
    (cfg : Config) (llm : LLM) (f : List Message → String)
    (gv bv : Option Json) (rj : Json) (eS : PyErr) (gl bl rl : List Call)
    (hg : serp_search gw q "google" cfg.brightdata_api_key = (.ok gv, gl))
    (hb : serp_search gw q "bing" cfg.brightdata_api_key = (.ok bv, bl))
    (hr : reddit_search_api gw q cfg.brightdata_api_key
      cfg.reddit_dataset_id = (.ok (some rj), rl))
    (hrt : pyTruthy rj = true)
    (hstruct : llm.invokeStructured
      (get_reddit_url_analysis_messages q rj) = .error eS)
    (hinv : ∀ m, llm.invoke m = .ok (f m)) :
    ∃ s, (run_research gw q cfg llm).fst = .ok s ∧
      s.selected_reddit_urls = some [] ∧ s.final_answer.isSome = true :=
  ⟨_, run_research_selection_caught_chain gw q cfg llm f gv bv rj eS
    gl bl rl hg hb hr hrt hstruct hinv, rfl, rfl⟩

/-- A gateway whose POSTs trigger snapshot `s1`, immediately ready, whose
download yields one well-formed social post. -/
def gwReddit : Gateway :=
  { post := fun _ _ _ => .ok (.obj [("snapshot_id", .str "s1")])
    progress := fun _ _ => .ok (.obj [("status", .str "ready")])
    snapshot := fun _ => .ok (.arr
      [.obj [("title", .str "T"), ("url", .str "u1")]]) }

/-- A model whose plain calls answer `"A"` but whose structured-output
call always throws. -/
def llmStructFail : LLM :=
  { invoke := fun _ => .ok "A"
    invokeStructured := fun _ => .error (.other "boom") }

/-- Witness for C3 with a live social search and a throwing
structured-output call. -/
theorem selection_failure_degrades_witness :
    ∃ s, (run_research gwReddit "q" cfgFull llmStructFail).fst = .ok s ∧
      s.selected_reddit_urls = some [] ∧ s.final_answer.isSome = true :=
  selection_failure_degrades gwReddit "q" cfgFull llmStructFail
    (fun _ => "A") _ _ _ (.other "boom") _ _ _ rfl rfl rfl rfl rfl
    (fun _ => rfl)

/-! ## C2 — analysis-stage model failures propagate uncaught -/

/-- C2: with the social search absent (so the earlier stages complete),
an exception thrown by the model call of whichever analysis stage runs
first unrecovered propagates out of the driver: the run yields
`Except.error` — no final state, hence no `final_answer`.  The three
conjuncts cover a throw in the google, bing, and reddit analysis stages
respectively. -/
theorem analysis_failure_propagates (gw : Gateway) (q : String)
    (cfg : Config) (llm : LLM) (gv bv : Option Json)
    (gl bl rl : List Call) (e : PyErr)
    (hg : serp_search gw q "google" cfg.brightdata_api_key = (.ok gv, gl))
    (hb : serp_search gw q "bing" cfg.brightdata_api_key = (.ok bv, bl))
    (hr : reddit_search_api gw q cfg.brightdata_api_key
      cfg.reddit_dataset_id = (.ok none, rl)) :
    (llm.invoke (get_google_analysis_messages q gv) = .error e →
      (run_research gw q cfg llm).fst = .error e) ∧
    (∀ t1, llm.invoke (get_google_analysis_messages q gv) = .ok t1 →
      llm.invoke (get_bing_analysis_messages q bv) = .error e →
      (run_research gw q cfg llm).fst = .error e) ∧
    (∀ t1 t2, llm.invoke (get_google_analysis_messages q gv) = .ok t1 →
      llm.invoke (get_bing_analysis_messages q bv) = .ok t2 →
      llm.invoke (get_reddit_analysis_messages q none (some (.arr [])))
        = .error e →
      (run_research gw q cfg llm).fst = .error e) := by
  refine ⟨?_, ?_, ?_⟩
  · intro hga
    simp only [run_research, stepOk, initState, google_node, bing_node,
      reddit_node, select_node, retrieve_node, analyze_google_node,
      google_search, bing_search, reddit_search, analyze_reddit_posts,
      retrieve_reddit_posts, analyze_google_results, pyStrOr,
      Option.getD, if_true, if_false, hg, hb, hr, hga]
  · intro t1 hga hba
    simp only [run_research, stepOk, initState, google_node, bing_node,
      reddit_node, select_node, retrieve_node, analyze_google_node,
      analyze_bing_node, google_search, bing_search, reddit_search,
      analyze_reddit_posts, retrieve_reddit_posts,
      analyze_google_results, analyze_bing_results, pyStrOr,
      Option.getD, if_true, if_false, hg, hb, hr, hga, hba]
  · intro t1 t2 hga hba hra
    simp only [run_research, stepOk, initState, google_node, bing_node,
      reddit_node, select_node, retrieve_node, analyze_google_node,
      analyze_bing_node, analyze_reddit_node, google_search, bing_search,
      reddit_search, analyze_reddit_posts, retrieve_reddit_posts,
      analyze_google_results, analyze_bing_results,
      analyze_reddit_results, pyStrOr, Option.getD, if_true, if_false,
      hg, hb, hr, hga, hba, hra]

/-- A model whose every plain call throws. -/
def llmFail : LLM :=
  { invoke := fun _ => .error (.other "boom1")
    invokeStructured := fun _ => .ok [] }

/-- A model that throws exactly on the bing-analysis prompt of the
dead-gateway run. -/
def llmBingFail : LLM :=
  { invoke := fun m =>
      if m = get_bing_analysis_messages "q" none then .error (.other "boom2")
      else .ok "A"
    invokeStructured := fun _ => .ok [] }

/-- A model that throws exactly on the reddit-analysis prompt of the
dead-gateway run. -/
def llmRedditFail : LLM :=
  { invoke := fun m =>
      if m = get_reddit_analysis_messages "q" none (some (.arr [])) then
        .error (.other "boom3")
      else .ok "A"
    invokeStructured := fun _ => .ok [] }

/-- Witness for C2: each of the three analysis stages' failures aborts
the concrete dead-gateway run with that stage's exception. -/
theorem analysis_failure_propagates_witness :
    (run_research gwDead "q" cfgFull llmFail).fst = .error (.other "boom1") ∧
    (run_research gwDead "q" cfgFull llmBingFail).fst =
      .error (.other "boom2") ∧
    (run_research gwDead "q" cfgFull llmRedditFail).fst =
      .error (.other "boom3") :=
  ⟨(analysis_failure_propagates gwDead "q" cfgFull llmFail none none
      _ _ _ (.other "boom1") rfl rfl rfl).1 rfl,
   (analysis_failure_propagates gwDead "q" cfgFull llmBingFail none none
      _ _ _ (.other "boom2") rfl rfl rfl).2.1 "A" rfl rfl,
   (analysis_failure_propagates gwDead "q" cfgFull llmRedditFail none none
      _ _ _ (.other "boom3") rfl rfl rfl).2.2 "A" "A" rfl rfl rfl⟩

/-! ## C7 — `final_answer` is exactly the synthesis output -/

theorem stepOk_fst_ok {r : Except PyErr State × List Call}
    {f : State → Except PyErr State × List Call} {s : State}
    (h : (stepOk r f).fst = .ok s) :
    ∃ s', r.fst = .ok s' ∧ (f s').fst = .ok s := by
  rcases hr : r with ⟨re, rl⟩
  rw [hr] at h
  cases re with
  | error e => exact absurd h (by simp [stepOk])
  | ok s' =>
    refine ⟨s', rfl, ?_⟩
    have hst : stepOk (.ok s', rl) f = ((f s').fst, rl ++ (f s').snd) := by
      show (match f s' with
        | (r2, log2) => ((r2 : Except PyErr State), rl ++ log2)) = _
      rcases f s' with ⟨r2, l2⟩
      rfl
    rw [hst] at h
    exact h

theorem google_node_fst_ok {gw : Gateway} {s s' : State}
    (h : (google_node gw s).fst = .ok s') :
    ∃ v, s' = { s with google_results := v } := by
  unfold google_node at h
  rcases hp : google_search gw s with ⟨r, l⟩
  rw [hp] at h
  cases r with
  | ok v =>
    have h' : Except.ok (ε := PyErr) { s with google_results := v } =
        .ok s' := h
    injection h' with h''
    exact ⟨v, h''.symm⟩
  | error e => exact absurd h (by simp)

theorem bing_node_fst_ok {gw : Gateway} {s s' : State}
    (h : (bing_node gw s).fst = .ok s') :
    ∃ v, s' = { s with bing_results := v } := by
  unfold bing_node at h
  rcases hp : bing_search gw s with ⟨r, l⟩
  rw [hp] at h
  cases r with
  | ok v =>
    have h' : Except.ok (ε := PyErr) { s with bing_results := v } =
        .ok s' := h
    injection h' with h''
    exact ⟨v, h''.symm⟩
  | error e => exact absurd h (by simp)

theorem reddit_node_fst_ok {gw : Gateway} {s s' : State}
    (h : (reddit_node gw s).fst = .ok s') :
    ∃ v, s' = { s with reddit_results := v } := by
  unfold reddit_node at h
  rcases hp : reddit_search gw s with ⟨r, l⟩
  rw [hp] at h
  cases r with
  | ok v =>
    have h' : Except.ok (ε := PyErr) { s with reddit_results := v } =
        .ok s' := h
    injection h' with h''
    exact ⟨v, h''.symm⟩
  | error e => exact absurd h (by simp)

theorem select_node_fst_ok {s s' : State}
    (h : (select_node s).fst = .ok s') :
    ∃ u, s' = { s with selected_reddit_urls := some u } := by
  unfold select_node at h
  rcases hp : analyze_reddit_posts s with ⟨urls, l⟩
  rw [hp] at h
  have h' : Except.ok (ε := PyErr)
      { s with selected_reddit_urls := some urls } = .ok s' := h
  injection h' with h''
  exact ⟨urls, h''.symm⟩

theorem retrieve_node_fst_ok {gw : Gateway} {s s' : State}
    (h : (retrieve_node gw s).fst = .ok s') :
    ∃ v, s' = { s with reddit_post_data := some v } := by
  unfold retrieve_node at h
  rcases hp : retrieve_reddit_posts gw s with ⟨r, l⟩
  rw [hp] at h
  cases r with
  | ok v =>
    have h' : Except.ok (ε := PyErr) { s with reddit_post_data := some v } =
        .ok s' := h
    injection h' with h''
    exact ⟨v, h''.symm⟩
  | error e => exact absurd h (by simp)

theorem analyze_google_node_fst_ok {s s' : State}
    (h : (analyze_google_node s).fst = .ok s') :
    ∃ t, s' = { s with google_analysis := some t } := by
  simp only [analyze_google_node, analyze_google_results] at h
  rcases hv : s.llm.invoke (get_google_analysis_messages
      (pyStrOr s.user_question) s.google_results) with e | t
  · rw [hv] at h
    exact absurd h (by simp)
  · rw [hv] at h
    have h' : Except.ok (ε := PyErr) { s with google_analysis := some t } =
        .ok s' := h
    injection h' with h''
    exact ⟨t, h''.symm⟩

theorem analyze_bing_node_fst_ok {s s' : State}
    (h : (analyze_bing_node s).fst = .ok s') :
    ∃ t, s' = { s with bing_analysis := some t } := by
  simp only [analyze_bing_node, analyze_bing_results] at h
  rcases hv : s.llm.invoke (get_bing_analysis_messages
      (pyStrOr s.user_question) s.bing_results) with e | t
  · rw [hv] at h
    exact absurd h (by simp)
  · rw [hv] at h
    have h' : Except.ok (ε := PyErr) { s with bing_analysis := some t } =
        .ok s' := h
    injection h' with h''
    exact ⟨t, h''.symm⟩

theorem analyze_reddit_node_fst_ok {s s' : State}
    (h : (analyze_reddit_node s).fst = .ok s') :
    ∃ t, s' = { s with reddit_analysis := some t } := by
  simp only [analyze_reddit_node, analyze_reddit_results] at h
  rcases hv : s.llm.invoke (get_reddit_analysis_messages
      (pyStrOr s.user_question) s.reddit_results s.reddit_post_data)
    with e | t
  · rw [hv] at h
    exact absurd h (by simp)
  · rw [hv] at h
    have h' : Except.ok (ε := PyErr) { s with reddit_analysis := some t } =
        .ok s' := h
    injection h' with h''
    exact ⟨t, h''.symm⟩

theorem synthesize_node_fst_ok {s s' : State}
    (h : (synthesize_node s).fst = .ok s') :
    ∃ t, s.llm.invoke (get_synthesis_messages (pyStrOr s.user_question)
        s.google_analysis s.bing_analysis s.reddit_analysis) = .ok t ∧
      s' = { s with final_answer := some t,
                    messages := s.messages ++ [⟨"assistant", t⟩] } := by
  simp only [synthesize_node, synthesize_analyses] at h
  rcases hv : s.llm.invoke (get_synthesis_messages (pyStrOr s.user_question)
      s.google_analysis s.bing_analysis s.reddit_analysis) with e | t
  · rw [hv] at h
    exact absurd h (by simp)
  · rw [hv] at h
    have h' : Except.ok (ε := PyErr)
        { s with final_answer := some t,
                 messages := s.messages ++ [⟨"assistant", t⟩] } =
        .ok s' := h
    injection h' with h''
    exact ⟨t, rfl, h''.symm⟩

/-- C7: whenever the driver returns a state at all, `final_answer` holds
exactly the reply text of the one synthesis model call — performed on the
prompt built from the question and the three analysis texts — and the
message log is the initial user entry plus exactly one assistant entry
carrying that same text.  (When synthesis does not complete, the driver
returns an exception instead of a state, so no state carries a
`final_answer` at all.) -/
theorem final_answer_iff_synthesis (gw : Gateway) (q : String)
    (cfg : Config) (llm : LLM) (s : State)
    (h : (run_research gw q cfg llm).fst = .ok s) :
    ∃ t, s.final_answer = some t ∧
      llm.invoke (get_synthesis_messages (pyStrOr s.user_question)
        s.google_analysis s.bing_analysis s.reddit_analysis) = .ok t ∧
      s.messages = [⟨"user", q⟩, ⟨"assistant", t⟩] ∧
      s.user_question = some q := by
  unfold run_research at h
  obtain ⟨s8, h8, hsyn⟩ := stepOk_fst_ok h
  obtain ⟨s7, h7, hra⟩ := stepOk_fst_ok h8
  obtain ⟨s6, h6, hba⟩ := stepOk_fst_ok h7
  obtain ⟨s5, h5, hga⟩ := stepOk_fst_ok h6
  obtain ⟨s4, h4, hret⟩ := stepOk_fst_ok h5
  obtain ⟨s3, h3, hsel⟩ := stepOk_fst_ok h4
  obtain ⟨s2, h2, hbing⟩ := stepOk_fst_ok h3
  obtain ⟨s1, h1, hred⟩ := stepOk_fst_ok h2
  obtain ⟨v1, rfl⟩ := google_node_fst_ok h1
  obtain ⟨v2, rfl⟩ := bing_node_fst_ok hred
  obtain ⟨v3, rfl⟩ := reddit_node_fst_ok hbing
  obtain ⟨u, rfl⟩ := select_node_fst_ok hsel
  obtain ⟨v5, rfl⟩ := retrieve_node_fst_ok hret
  obtain ⟨t1, rfl⟩ := analyze_google_node_fst_ok hga
  obtain ⟨t2, rfl⟩ := analyze_bing_node_fst_ok hba
  obtain ⟨t3, rfl⟩ := analyze_reddit_node_fst_ok hra
  obtain ⟨t, hv, rfl⟩ := synthesize_node_fst_ok hsyn
  exact ⟨t, rfl, hv, rfl, rfl⟩

/-- The final state of the concrete dead-gateway run with the constant
model. -/
def stateDeadRun : State :=
  { messages := [⟨"user", "q"⟩, ⟨"assistant", "A"⟩]
    user_question := some "q"
    google_results := none
    bing_results := none
    reddit_results := none
    selected_reddit_urls := some []
    reddit_post_data := some (.arr [])
    google_analysis := some "A"
    bing_analysis := some "A"
    reddit_analysis := some "A"
    final_answer := some "A"
    config := cfgFull
    llm := llmOk }

/-- Witness for C7 at the concrete dead-gateway run. -/
theorem final_answer_iff_synthesis_witness :
    ∃ t, stateDeadRun.final_answer = some t ∧
      llmOk.invoke (get_synthesis_messages (pyStrOr stateDeadRun.user_question)
        stateDeadRun.google_analysis stateDeadRun.bing_analysis
        stateDeadRun.reddit_analysis) = .ok t ∧
      stateDeadRun.messages = [⟨"user", "q"⟩, ⟨"assistant", t⟩] ∧
      stateDeadRun.user_question = some "q" :=
  final_answer_iff_synthesis gwDead "q" cfgFull llmOk stateDeadRun rfl

end AiSearchAgent
